import Mathlib

/-!
Verification of the coin-tapper application: a tap-to-earn coin game with
fixed redemption tiers, a demo-mode withdrawal pipeline, a withdrawal
history view, and a standalone PayPal payout HTTP function.

The definitions below are a shallow embedding of the TypeScript source:
numbers are modelled as `Int` (all arithmetic in the program stays far from
the float-precision boundary), timestamps as `Int`, and the two fallible
database operations of the withdrawal flow are given explicit success flags
so that the try/catch control flow of the source becomes a pure function.
-/

/-- Data model of a redemption tier, from the static table in
RedeemCoins.tsx: coin cost, dollar payout, display label, popular flag. -/
structure RedeemTier where
  coins : Int
  amount : Int
  label : String
  popular : Bool
deriving Repr, DecidableEq

/-- The fixed tier table of RedeemCoins.tsx. -/
def redeemTiers : List RedeemTier :=
  [ ⟨5000, 1, "$1", false⟩,
    ⟨10000, 5, "$5", true⟩,
    ⟨100000, 20, "$20", false⟩,
    ⟨1000000, 100, "$100", false⟩ ]

/-- A withdrawal record as created by updateWithdrawal in App.tsx.
The createdAt ISO string is modelled as an integer timestamp. -/
structure Withdrawal where
  userId : String
  amount : Int
  coinsSpent : Int
  paypalEmail : String
  status : String
  batchId : String
  createdAt : Int
deriving Repr, DecidableEq

/-- The persistent state the client mutates: whether a signed-in user with
loaded stats is present, the userStats record (totalCoins,
totalWithdrawn), and the withdrawals table. -/
structure AppState where
  hasUser : Bool
  totalCoins : Int
  totalWithdrawn : Int
  withdrawals : List Withdrawal
deriving Repr, DecidableEq

/-- Result of updateWithdrawal: the new state, the boolean returned to the
caller, and how many simulated payout delays were performed. -/
structure WithdrawResult where
  state : AppState
  ok : Bool
  simulatedPayouts : Nat
deriving Repr, DecidableEq

/-- updateWithdrawal from App.tsx. The guard returns false when no user or
stats are loaded. Otherwise the demo payout delay runs (counted in
simulatedPayouts), then the withdrawal record is created, then the user
stats are updated; createOk and updateOk say whether the two database
calls succeed, and a thrown error lands in the catch block, which returns
false with whatever effects already happened kept. -/
def updateWithdrawal (uid : String) (now : Int) (createOk updateOk : Bool)
    (amount coinsSpent : Int) (paypalEmail : String) (st : AppState) :
    WithdrawResult :=
  if st.hasUser = false then ⟨st, false, 0⟩
  else if createOk = false then ⟨st, false, 1⟩
  else
    let w : Withdrawal :=
      ⟨uid, amount, coinsSpent, paypalEmail, "completed",
        "DEMO_" ++ toString now, now⟩
    let st1 : AppState := { st with withdrawals := st.withdrawals ++ [w] }
    if updateOk = false then ⟨st1, false, 1⟩
    else
      ⟨{ st1 with
          totalCoins := st.totalCoins - coinsSpent,
          totalWithdrawn := st.totalWithdrawn + amount }, true, 1⟩

/-- The outcome surfaced to the user by handleRedeem via toasts. -/
inductive RedeemOutcome
  | missingInfo
  | insufficientCoins
  | failed
  | success
deriving Repr, DecidableEq

/-- Result of one handleRedeem invocation. -/
structure RedeemResult where
  state : AppState
  outcome : RedeemOutcome
  simulatedPayouts : Nat
deriving Repr, DecidableEq

/-- The JavaScript string trim used by handleRedeem, as an executable
function on the character list: whitespace is removed from both ends. -/
def jsTrim (s : String) : String :=
  ⟨((s.toList.dropWhile Char.isWhitespace).reverse.dropWhile
      Char.isWhitespace).reverse⟩

/-- The coins prop App.tsx passes to the components:
userStats totalCoins, or 0 when no stats are loaded. -/
def propCoins (st : AppState) : Int :=
  if st.hasUser then st.totalCoins else 0

/-- handleRedeem from RedeemCoins.tsx: reject when no tier is selected or
the trimmed email is empty; reject when the balance is below the tier
cost; otherwise run updateWithdrawal and report its boolean. -/
def handleRedeem (uid : String) (now : Int) (createOk updateOk : Bool)
    (selectedTier : Option RedeemTier) (paypalEmail : String)
    (st : AppState) : RedeemResult :=
  match selectedTier with
  | none => ⟨st, .missingInfo, 0⟩
  | some tier =>
    if jsTrim paypalEmail = "" then ⟨st, .missingInfo, 0⟩
    else if propCoins st < tier.coins then ⟨st, .insufficientCoins, 0⟩
    else
      let r := updateWithdrawal uid now createOk updateOk
        tier.amount tier.coins paypalEmail st
      ⟨r.state, if r.ok then .success else .failed, r.simulatedPayouts⟩

/-- updateCoins from App.tsx: no-op without a user or when the database
update fails, otherwise set totalCoins to the given value. -/
def updateCoins (dbOk : Bool) (newCoinCount : Int) (st : AppState) :
    AppState :=
  if st.hasUser = false then st
  else if dbOk = false then st
  else { st with totalCoins := newCoinCount }

/-- handleTap from TapToEarn.tsx: add 100 to the coins prop and push the
result through updateCoins. -/
def handleTap (dbOk : Bool) (st : AppState) : AppState :=
  updateCoins dbOk (propCoins st + 100) st

/-- canAfford from RedeemCoins.tsx. -/
def canAfford (coins tierCoins : Int) : Bool :=
  coins ≥ tierCoins

/-- getProgressPercentage from RedeemCoins.tsx, over the rationals. -/
def getProgressPercentage (coins tierCoins : ℚ) : ℚ :=
  min (coins / tierCoins * 100) 100

/-! ## The standalone PayPal payout HTTP function (Deno serve handler) -/

/-- The JSON body of a payout request; a missing field is none. JavaScript
numbers are modelled as Int. -/
structure PayoutBody where
  email : Option String
  amount : Option Int
  coins : Option Int
  userId : Option String
deriving Repr, DecidableEq

/-- Result of parsing the request body as JSON; a parse failure carries
the exception message the catch block will report. -/
inductive BodyParse
  | fail (msg : String)
  | parsed (b : PayoutBody)
deriving Repr, DecidableEq

/-- An incoming HTTP request: the method and the parsed body. -/
structure HttpRequest where
  method : String
  body : BodyParse
deriving Repr, DecidableEq

/-- JavaScript truthiness test on a possibly-missing string: undefined and
the empty string are falsy. -/
def falsyStr : Option String → Bool
  | none => true
  | some s => s = ""

/-- JavaScript truthiness test on a possibly-missing number: undefined and
0 are falsy. -/
def falsyInt : Option Int → Bool
  | none => true
  | some n => n = 0

/-- A character allowed by the character class of the email regex in the
payout function: anything that is not whitespace and not the at sign. -/
def isEmailChar (c : Char) : Bool :=
  !c.isWhitespace && c ≠ '@'

/-- The test of the anchored email regex of the payout function: one or
more allowed characters, an at sign, then a domain of allowed characters
containing a dot that is neither its first nor its last character. -/
def emailRegexTest (s : String) : Bool :=
  match s.toList.splitOn '@' with
  | [lpart, dpart] =>
    lpart ≠ [] && lpart.all isEmailChar &&
      dpart.all isEmailChar && ((dpart.drop 1).dropLast).contains '.'
  | _ => false

/-- The JSON bodies the payout function can respond with. -/
inductive RespBody
  | noBody
  | err (msg : String)
  | errDetails (msg details : String)
  | paid (batchId batchStatus message : String)
deriving Repr, DecidableEq

/-- An HTTP response: status code, headers, JSON body. -/
structure HttpResponse where
  status : Nat
  headers : List (String × String)
  body : RespBody
deriving Repr, DecidableEq

/-- The header list used by every JSON response of the payout function. -/
def corsJsonHeaders : List (String × String) :=
  [("Content-Type", "application/json"),
   ("Access-Control-Allow-Origin", "*")]

/-- Environment and gateway behaviour visible to one invocation of the
payout function: the two credential variables, whether the token call
returns 2xx (with its error text otherwise), and whether the payout call
returns 2xx (with its error text, or the batch id and batch status of the
success body). -/
structure ServeEnv where
  clientId : Option String
  clientSecret : Option String
  tokenOk : Bool
  tokenErrorText : String
  payoutOk : Bool
  payoutErrorText : String
  payoutBatchId : String
  payoutBatchStatus : String
deriving Repr, DecidableEq

/-- Result of one invocation of the payout function: the response plus how
many times each gateway endpoint was called. -/
structure ServeResult where
  response : HttpResponse
  tokenCalls : Nat
  payoutCalls : Nat
deriving Repr, DecidableEq

/-- The serve handler of the standalone payout function, step by step from
the source: OPTIONS short-circuit (a Response built with no explicit
status, hence status 200), method check, body parse, falsiness check of
the four fields, email regex check, credentials check, token call, payout
call, success response. -/
def serveHandler (env : ServeEnv) (req : HttpRequest) : ServeResult :=
  if req.method = "OPTIONS" then
    ⟨⟨200,
      [("Access-Control-Allow-Origin", "*"),
       ("Access-Control-Allow-Methods", "POST, OPTIONS"),
       ("Access-Control-Allow-Headers", "Content-Type, Authorization")],
      .noBody⟩, 0, 0⟩
  else if req.method ≠ "POST" then
    ⟨⟨405, corsJsonHeaders, .err "Method not allowed"⟩, 0, 0⟩
  else
    match req.body with
    | .fail msg =>
      ⟨⟨500, corsJsonHeaders, .errDetails "Internal server error" msg⟩,
        0, 0⟩
    | .parsed b =>
      if falsyStr b.email || falsyInt b.amount || falsyInt b.coins ||
          falsyStr b.userId then
        ⟨⟨400, corsJsonHeaders, .err "Missing required fields"⟩, 0, 0⟩
      else if emailRegexTest (b.email.getD "") = false then
        ⟨⟨400, corsJsonHeaders, .err "Invalid email format"⟩, 0, 0⟩
      else if falsyStr env.clientId || falsyStr env.clientSecret then
        ⟨⟨500, corsJsonHeaders, .err "PayPal credentials not configured"⟩,
          0, 0⟩
      else if env.tokenOk = false then
        ⟨⟨500, corsJsonHeaders, .err "Failed to authenticate with PayPal"⟩,
          1, 0⟩
      else if env.payoutOk = false then
        ⟨⟨500, corsJsonHeaders, .err "Failed to process payout"⟩, 1, 1⟩
      else
        ⟨⟨200, corsJsonHeaders,
          .paid env.payoutBatchId env.payoutBatchStatus
            ("$" ++ toString (b.amount.getD 0) ++ " has been sent to " ++
              b.email.getD "" ++
              ". It may take a few minutes to appear in your PayPal account.")⟩,
          1, 1⟩

/-! ## The withdrawal history view -/

/-- Modelled from the spec: the persistence collaborator is an external
managed store whose list operation supports query-by-field, ordering and a
limit. Its implementation is not part of the repository; this definition
follows the surface described in the spec: filter by the where clause,
order by the given key, truncate to the limit. Ordering by createdAt
descending is the relation below. -/
def createdDesc (a b : Withdrawal) : Prop :=
  b.createdAt ≤ a.createdAt

instance : DecidableRel createdDesc := fun a b =>
  inferInstanceAs (Decidable (b.createdAt ≤ a.createdAt))

instance : IsTotal Withdrawal createdDesc :=
  ⟨fun a b => le_total b.createdAt a.createdAt⟩

instance : IsTrans Withdrawal createdDesc :=
  ⟨fun _ _ _ h1 h2 => le_trans h2 h1⟩

/-- Modelled from the spec: the list operation of the store, specialised
to the query issued by loadWithdrawals. -/
def dbListWithdrawals (records : List Withdrawal) (uid : String)
    (limit : Nat) : List Withdrawal :=
  (List.insertionSort createdDesc
    (records.filter (fun w => w.userId = uid))).take limit

/-- loadWithdrawals from WithdrawalHistory.tsx: list withdrawals where
userId matches, ordered by createdAt descending, limit 50. -/
def loadWithdrawals (records : List Withdrawal) (uid : String) :
    List Withdrawal :=
  dbListWithdrawals records uid 50

/-! ## Operations on the application state -/

/-- The two state-mutating user operations of the application: one tap on
the earn button, and one redemption attempt with its parameters. -/
inductive Op
  | tap (dbOk : Bool)
  | redeem (uid : String) (now : Int) (createOk updateOk : Bool)
      (tier : Option RedeemTier) (email : String)

/-- Apply one operation to the application state. -/
def applyOp (st : AppState) : Op → AppState
  | .tap dbOk => handleTap dbOk st
  | .redeem uid now createOk updateOk tier email =>
    (handleRedeem uid now createOk updateOk tier email st).state

/-- A concrete gateway environment with configured credentials and a
cooperative gateway, used to instantiate closed statements. -/
def sampleEnv : ServeEnv :=
  ⟨some "id", some "secret", true, "", true, "", "BATCH1", "SUCCESS"⟩

/-- Fifty-one withdrawal records of one user with distinct timestamps,
used to instantiate closed statements about the history view. -/
def sampleRecords : List Withdrawal :=
  (List.range 51).map
    (fun i => ⟨"u", 1, 5000, "a@b.com", "completed", "B", (i : Int)⟩)

/-! ## Theorems -/

/-- Claim C1: for every user state with balance b and cumulative-withdrawn
w, and every tier t with b at least t.coins, a successful redemption of
tier t (both persistence calls succeed) yields new balance b minus
t.coins, cumulative-withdrawn w plus t.amount, and appends exactly one
withdrawal record with status completed, coinsSpent equal to the tier
coin cost and amount equal to the tier dollar amount. -/
theorem redeem_success_spec (uid : String) (now : Int) (tier : RedeemTier)
    (email : String) (st : AppState) (hUser : st.hasUser = true)
    (hEmail : jsTrim email ≠ "") (hAfford : tier.coins ≤ st.totalCoins) :
    handleRedeem uid now true true (some tier) email st =
      ⟨⟨st.hasUser, st.totalCoins - tier.coins,
        st.totalWithdrawn + tier.amount,
        st.withdrawals ++
          [⟨uid, tier.amount, tier.coins, email, "completed",
            "DEMO_" ++ toString now, now⟩]⟩,
        .success, 1⟩ := by
  have hlt : ¬ (propCoins st < tier.coins) := by
    simp [propCoins, hUser]
    exact hAfford
  simp [handleRedeem, updateWithdrawal, hEmail, hlt, hUser]

/-- Witness for C1: the end-to-end scenario of the spec, balance 10000 and
the 10000-coin tier, yields balance 0, cumulative-withdrawn 5 and one
completed record. -/
theorem redeem_success_spec_witness :
    handleRedeem "u" 7 true true (some ⟨10000, 5, "$5", true⟩) "a@b.com"
      ⟨true, 10000, 0, []⟩ =
      ⟨⟨true, 0, 5, [⟨"u", 5, 10000, "a@b.com", "completed", "DEMO_7", 7⟩]⟩,
        .success, 1⟩ := by
  have h := redeem_success_spec "u" 7 ⟨10000, 5, "$5", true⟩ "a@b.com"
    ⟨true, 10000, 0, []⟩ rfl (by decide) (by decide)
  exact h.trans (by decide)

/-- Claim C2 (amended): for every redemption attempt that does not
succeed, the balance and the cumulative-withdrawn amount are unchanged,
and no withdrawal record is created except when the record-creation call
succeeded and the subsequent stats update failed, in which case the
already-created completed record remains despite the reported failure. -/
theorem redeem_failure_spec (uid : String) (now : Int)
    (createOk updateOk : Bool) (tier : Option RedeemTier) (email : String)
    (st : AppState)
    (h : (handleRedeem uid now createOk updateOk tier email st).outcome ≠
      .success) :
    (handleRedeem uid now createOk updateOk tier email st).state.totalCoins =
      st.totalCoins ∧
    (handleRedeem uid now createOk updateOk tier email st).state.totalWithdrawn =
      st.totalWithdrawn ∧
    ((handleRedeem uid now createOk updateOk tier email st).state.withdrawals =
        st.withdrawals ∨
      (createOk = true ∧ updateOk = false ∧
        ∃ w : Withdrawal, w.status = "completed" ∧
          (handleRedeem uid now createOk updateOk tier email st).state.withdrawals =
            st.withdrawals ++ [w])) := by
  cases tier with
  | none => simp [handleRedeem]
  | some t =>
    by_cases hE : jsTrim email = ""
    · simp [handleRedeem, hE]
    · by_cases hLt : propCoins st < t.coins
      · simp [handleRedeem, hE, hLt]
      · by_cases hU : st.hasUser = false
        · simp [handleRedeem, updateWithdrawal, hE, hLt, hU]
        · cases createOk with
          | false => simp [handleRedeem, updateWithdrawal, hE, hLt, hU]
          | true =>
            cases updateOk with
            | false =>
              refine ⟨?_, ?_, Or.inr ⟨rfl, rfl, ?_⟩⟩ <;>
                simp [handleRedeem, updateWithdrawal, hE, hLt, hU]
            | true =>
              exfalso
              apply h
              simp [handleRedeem, updateWithdrawal, hE, hLt, hU]

/-- Witness for C2 (amended): a failing record-creation call reports
failure and leaves the state fully unchanged. -/
theorem redeem_failure_spec_witness :
    (handleRedeem "u" 7 false true (some ⟨5000, 1, "$1", false⟩) "a@b.com"
        ⟨true, 5000, 0, []⟩).outcome ≠ RedeemOutcome.success ∧
    ((handleRedeem "u" 7 false true (some ⟨5000, 1, "$1", false⟩) "a@b.com"
        ⟨true, 5000, 0, []⟩).state.totalCoins = 5000 ∧
      (handleRedeem "u" 7 false true (some ⟨5000, 1, "$1", false⟩) "a@b.com"
        ⟨true, 5000, 0, []⟩).state.totalWithdrawn = 0 ∧
      ((handleRedeem "u" 7 false true (some ⟨5000, 1, "$1", false⟩) "a@b.com"
          ⟨true, 5000, 0, []⟩).state.withdrawals = [] ∨
        (false = true ∧ true = false ∧
          ∃ w : Withdrawal, w.status = "completed" ∧
            (handleRedeem "u" 7 false true (some ⟨5000, 1, "$1", false⟩)
              "a@b.com" ⟨true, 5000, 0, []⟩).state.withdrawals = [] ++ [w]))) :=
  ⟨by decide, redeem_failure_spec "u" 7 false true (some ⟨5000, 1, "$1", false⟩)
    "a@b.com" ⟨true, 5000, 0, []⟩ (by decide)⟩

/-- Counterexample to C2 as stated: when the record creation succeeds and
the stats update fails, the pipeline reports failure to the caller yet a
withdrawal record has been created. -/
theorem redeem_failure_creates_record_cex :
    (handleRedeem "u" 7 true false (some ⟨5000, 1, "$1", false⟩) "a@b.com"
      ⟨true, 5000, 0, []⟩).outcome = .failed ∧
    (handleRedeem "u" 7 true false (some ⟨5000, 1, "$1", false⟩) "a@b.com"
      ⟨true, 5000, 0, []⟩).state.withdrawals ≠ [] := by decide

/-- Claim C3 (amended): an empty or whitespace-only destination email is
rejected by the client redemption pipeline before any payout, with no
side effects; the local-at-domain-dot-tld pattern is enforced only by the
standalone payout HTTP function, which answers 400 before any gateway
call when the email fails the pattern. -/
theorem email_validation_spec (uid : String) (now : Int)
    (createOk updateOk : Bool) (tier : RedeemTier) (email : String)
    (st : AppState) (env : ServeEnv) (b : PayoutBody)
    (hEmpty : jsTrim email = "")
    (hFields : (falsyStr b.email || falsyInt b.amount || falsyInt b.coins ||
      falsyStr b.userId) = false)
    (hBad : emailRegexTest (b.email.getD "") = false) :
    handleRedeem uid now createOk updateOk (some tier) email st =
      ⟨st, .missingInfo, 0⟩ ∧
    serveHandler env ⟨"POST", .parsed b⟩ =
      ⟨⟨400, corsJsonHeaders, .err "Invalid email format"⟩, 0, 0⟩ := by
  constructor
  · simp [handleRedeem, hEmpty]
  · simp [serveHandler, hFields, hBad]

/-- Witness for C3 (amended): a whitespace-only email is rejected by the
client pipeline with no effects, and the HTTP function answers 400 with
no gateway calls for the email notanemail. -/
theorem email_validation_spec_witness :
    jsTrim "   " = "" ∧
    (falsyStr (some "notanemail") || falsyInt (some 1) || falsyInt (some 5000) ||
      falsyStr (some "u")) = false ∧
    emailRegexTest ((some "notanemail").getD "") = false ∧
    (handleRedeem "u" 7 true true (some ⟨5000, 1, "$1", false⟩) "   "
        ⟨true, 5000, 0, []⟩ = ⟨⟨true, 5000, 0, []⟩, .missingInfo, 0⟩ ∧
      serveHandler sampleEnv
          ⟨"POST", .parsed ⟨some "notanemail", some 1, some 5000, some "u"⟩⟩ =
        ⟨⟨400, corsJsonHeaders, .err "Invalid email format"⟩, 0, 0⟩) :=
  ⟨by decide, by decide, by decide,
    email_validation_spec "u" 7 true true ⟨5000, 1, "$1", false⟩ "   "
      ⟨true, 5000, 0, []⟩ sampleEnv
      ⟨some "notanemail", some 1, some 5000, some "u"⟩
      (by decide) (by decide) (by decide)⟩

/-- Counterexample to C3 as stated: the shipped client pipeline accepts
the email notanemail, which fails the pattern, performs the simulated
payout and mutates the balance instead of rejecting the request. -/
theorem invalid_email_accepted_cex :
    emailRegexTest "notanemail" = false ∧
    (handleRedeem "u" 7 true true (some ⟨5000, 1, "$1", false⟩) "notanemail"
      ⟨true, 5000, 0, []⟩).outcome = .success ∧
    (handleRedeem "u" 7 true true (some ⟨5000, 1, "$1", false⟩) "notanemail"
      ⟨true, 5000, 0, []⟩).simulatedPayouts = 1 ∧
    (handleRedeem "u" 7 true true (some ⟨5000, 1, "$1", false⟩) "notanemail"
      ⟨true, 5000, 0, []⟩).state.totalCoins = 0 := by decide

/-- Claim C4: for every tier t and balance b below t.coins, a redemption
attempt is rejected: the whole state is unchanged, no simulated payout is
performed, and the outcome is one of the two synchronous rejections. -/
theorem redeem_insufficient_spec (uid : String) (now : Int)
    (createOk updateOk : Bool) (tier : RedeemTier) (email : String)
    (st : AppState) (hUser : st.hasUser = true)
    (hLt : st.totalCoins < tier.coins) :
    (handleRedeem uid now createOk updateOk (some tier) email st).state = st ∧
    (handleRedeem uid now createOk updateOk (some tier) email st).simulatedPayouts
      = 0 ∧
    ((handleRedeem uid now createOk updateOk (some tier) email st).outcome =
        .missingInfo ∨
      (handleRedeem uid now createOk updateOk (some tier) email st).outcome =
        .insufficientCoins) := by
  have hlt : propCoins st < tier.coins := by simp [propCoins, hUser, hLt]
  by_cases hE : jsTrim email = "" <;> simp [handleRedeem, hE, hlt]

/-- Witness for C4: the end-to-end scenario of the spec, balance 4000 and
the 5000-coin tier, is rejected with the state unchanged and no payout. -/
theorem redeem_insufficient_spec_witness :
    ((4000 : Int) < 5000) ∧
    ((handleRedeem "u" 7 true true (some ⟨5000, 1, "$1", false⟩) "a@b.com"
        ⟨true, 4000, 0, []⟩).state = ⟨true, 4000, 0, []⟩ ∧
      (handleRedeem "u" 7 true true (some ⟨5000, 1, "$1", false⟩) "a@b.com"
        ⟨true, 4000, 0, []⟩).simulatedPayouts = 0 ∧
      ((handleRedeem "u" 7 true true (some ⟨5000, 1, "$1", false⟩) "a@b.com"
          ⟨true, 4000, 0, []⟩).outcome = .missingInfo ∨
        (handleRedeem "u" 7 true true (some ⟨5000, 1, "$1", false⟩) "a@b.com"
          ⟨true, 4000, 0, []⟩).outcome = .insufficientCoins)) :=
  ⟨by decide, redeem_insufficient_spec "u" 7 true true ⟨5000, 1, "$1", false⟩
    "a@b.com" ⟨true, 4000, 0, []⟩ rfl (by decide)⟩

/-- Helper: applying one operation preserves a non-negative balance. -/
theorem applyOp_nonneg (st : AppState) (h : 0 ≤ st.totalCoins) (o : Op) :
    0 ≤ (applyOp st o).totalCoins := by
  cases o with
  | tap dbOk =>
    rcases st with ⟨hu, tc, tw, ws⟩
    cases hu <;> cases dbOk <;>
      simp [applyOp, handleTap, updateCoins, propCoins] at h ⊢ <;> omega
  | redeem uid now createOk updateOk tier email =>
    cases tier with
    | none => simpa [applyOp, handleRedeem] using h
    | some t =>
      by_cases hE : jsTrim email = ""
      · simpa [applyOp, handleRedeem, hE] using h
      · by_cases hLt : propCoins st < t.coins
        · simpa [applyOp, handleRedeem, hE, hLt] using h
        · by_cases hU : st.hasUser = false
          · simpa [applyOp, handleRedeem, updateWithdrawal, hE, hLt, hU] using h
          · have hU2 : st.hasUser = true := by
              cases hhu : st.hasUser
              · exact absurd hhu hU
              · rfl
            have hle : t.coins ≤ st.totalCoins := by
              rw [propCoins, hU2] at hLt
              simp at hLt
              exact hLt
            cases createOk with
            | false =>
              simpa [applyOp, handleRedeem, updateWithdrawal, hE, hLt, hU]
                using h
            | true =>
              cases updateOk with
              | false =>
                simpa [applyOp, handleRedeem, updateWithdrawal, hE, hLt, hU]
                  using h
              | true =>
                simp [applyOp, handleRedeem, updateWithdrawal, hE, hLt, hU]
                omega

/-- Helper: any sequence of operations preserves a non-negative
balance. -/
theorem foldl_applyOp_nonneg (ops : List Op) :
    ∀ st : AppState, 0 ≤ st.totalCoins →
      0 ≤ (ops.foldl applyOp st).totalCoins := by
  induction ops with
  | nil => intro st h; simpa using h
  | cons o rest ih =>
    intro st h
    exact ih _ (applyOp_nonneg st h o)

/-- Helper: a successful redemption implies the affordability check
passed, that is, a user is present and the tier cost is at most the
balance. -/
theorem redeem_success_needs_affordability (uid : String) (now : Int)
    (createOk updateOk : Bool) (t : RedeemTier) (email : String)
    (st : AppState)
    (h : (handleRedeem uid now createOk updateOk (some t) email st).outcome =
      RedeemOutcome.success) :
    st.hasUser = true ∧ t.coins ≤ st.totalCoins := by
  by_cases hE : jsTrim email = ""
  · simp [handleRedeem, hE] at h
  · by_cases hLt : propCoins st < t.coins
    · simp [handleRedeem, hE, hLt] at h
    · by_cases hU : st.hasUser = false
      · simp [handleRedeem, updateWithdrawal, hE, hLt, hU] at h
      · have hU2 : st.hasUser = true := by
          cases hhu : st.hasUser
          · exact absurd hhu hU
          · rfl
        refine ⟨hU2, ?_⟩
        rw [propCoins, hU2] at hLt
        simp at hLt
        exact hLt

/-- Claim C5: starting from a non-negative balance, every sequence of
operations keeps the balance non-negative; a successful tap adds exactly
100 coins with no precondition on the balance, and a redemption can only
subtract the tier cost when the affordability check passed, so the
balance never goes negative. -/
theorem balance_never_negative (st : AppState) (h : 0 ≤ st.totalCoins) :
    (∀ ops : List Op, 0 ≤ (ops.foldl applyOp st).totalCoins) ∧
    (st.hasUser = true →
      (handleTap true st).totalCoins = st.totalCoins + 100) ∧
    (∀ (uid : String) (now : Int) (createOk updateOk : Bool)
        (t : RedeemTier) (email : String),
      (handleRedeem uid now createOk updateOk (some t) email st).outcome =
        RedeemOutcome.success → t.coins ≤ st.totalCoins) := by
  refine ⟨fun ops => foldl_applyOp_nonneg ops st h, ?_, ?_⟩
  · intro hU
    simp [handleTap, updateCoins, propCoins, hU]
  · intro uid now createOk updateOk t email hs
    exact (redeem_success_needs_affordability uid now createOk updateOk t
      email st hs).2

/-- Witness for C5: from balance 0, a tap followed by a redemption
attempt leaves the balance non-negative. -/
theorem balance_never_negative_witness :
    (0 : Int) ≤ (⟨true, 0, 0, []⟩ : AppState).totalCoins ∧
    0 ≤ (([Op.tap true,
        Op.redeem "u" 7 true true (some ⟨5000, 1, "$1", false⟩) "a@b.com"]).foldl
      applyOp ⟨true, 0, 0, []⟩).totalCoins :=
  ⟨by decide, (balance_never_negative ⟨true, 0, 0, []⟩ (by decide)).1 _⟩

/-- Claim C6: the affordability function returns exactly the comparison
of balance against the tier coin cost, and over the rationals, for
positive tier cost, the progress metric equals the ratio capped at one,
expressed as a percentage capped at 100. -/
theorem affordability_progress_spec (b c : Int) (bq cq : ℚ)
    (hpos : 0 < cq) :
    (canAfford b c = true ↔ c ≤ b) ∧
    getProgressPercentage bq cq = 100 * min (bq / cq) 1 := by
  have hne : cq ≠ 0 := ne_of_gt hpos
  constructor
  · simp [canAfford]
  · unfold getProgressPercentage
    rcases le_total (bq / cq) 1 with h | h
    · rw [min_eq_left (by linarith), min_eq_left h]
      ring
    · rw [min_eq_right (by linarith), min_eq_right h]
      ring

/-- Witness for C6: at balance 4000 and tier cost 5000 the tier is not
affordable and the progress metric is 80 percent. -/
theorem affordability_progress_spec_witness :
    ((0 : ℚ) < 5000) ∧
    ((canAfford 4000 5000 = true ↔ (5000 : Int) ≤ 4000) ∧
      getProgressPercentage 4000 5000 = 100 * min ((4000 : ℚ) / 5000) 1) :=
  ⟨by norm_num, affordability_progress_spec 4000 5000 4000 5000 (by norm_num)⟩

/-- Claim C7: for a valid POST with configured credentials, a non-2xx
token response yields a 500 with a generic authentication-failure body,
exactly one token call and no payout call; a non-2xx payout response
yields a 500 with a generic payout-failure body, one token call and one
payout call. The right-hand sides are constants, so the upstream error
texts of the environment never appear in the response and no retry
happens. -/
theorem gateway_failure_spec (env : ServeEnv) (b : PayoutBody)
    (hFields : (falsyStr b.email || falsyInt b.amount || falsyInt b.coins ||
      falsyStr b.userId) = false)
    (hEmail : emailRegexTest (b.email.getD "") = true)
    (hCreds : (falsyStr env.clientId || falsyStr env.clientSecret) = false) :
    (env.tokenOk = false →
      serveHandler env ⟨"POST", .parsed b⟩ =
        ⟨⟨500, corsJsonHeaders, .err "Failed to authenticate with PayPal"⟩,
          1, 0⟩) ∧
    (env.tokenOk = true → env.payoutOk = false →
      serveHandler env ⟨"POST", .parsed b⟩ =
        ⟨⟨500, corsJsonHeaders, .err "Failed to process payout"⟩, 1, 1⟩) := by
  constructor
  · intro hTok
    simp [serveHandler, hFields, hEmail, hCreds, hTok]
  · intro hTok hPay
    simp [serveHandler, hFields, hEmail, hCreds, hTok, hPay]

/-- Witness for C7: with a failing token endpoint whose error text is
boom, the response is the generic 500 authentication failure, one token
call, no payout call, and boom appears nowhere in it. -/
theorem gateway_failure_spec_witness :
    (falsyStr (some "a@b.com") || falsyInt (some 5) || falsyInt (some 10000) ||
      falsyStr (some "u")) = false ∧
    emailRegexTest ((some "a@b.com").getD "") = true ∧
    (falsyStr (some "id") || falsyStr (some "sec")) = false ∧
    serveHandler ⟨some "id", some "sec", false, "boom", true, "", "B", "S"⟩
        ⟨"POST", .parsed ⟨some "a@b.com", some 5, some 10000, some "u"⟩⟩ =
      ⟨⟨500, corsJsonHeaders, .err "Failed to authenticate with PayPal"⟩,
        1, 0⟩ :=
  ⟨by decide, by decide, by decide,
    (gateway_failure_spec
      ⟨some "id", some "sec", false, "boom", true, "", "B", "S"⟩
      ⟨some "a@b.com", some 5, some 10000, some "u"⟩
      (by decide) (by decide) (by decide)).1 rfl⟩

/-- Claim C8 (amended): every OPTIONS request gets status 200 (the
default status of a Response built with no explicit status, not 204)
with permissive CORS headers allowing the methods POST and OPTIONS, and
no gateway call. -/
theorem options_response_spec (env : ServeEnv) (body : BodyParse) :
    serveHandler env ⟨"OPTIONS", body⟩ =
      ⟨⟨200,
        [("Access-Control-Allow-Origin", "*"),
         ("Access-Control-Allow-Methods", "POST, OPTIONS"),
         ("Access-Control-Allow-Headers", "Content-Type, Authorization")],
        .noBody⟩, 0, 0⟩ := by
  simp [serveHandler]

/-- Counterexample to C8 as stated: the status of the OPTIONS response is
not 204. -/
theorem options_status_cex :
    (serveHandler sampleEnv ⟨"OPTIONS", .fail ""⟩).response.status ≠ 204 := by
  decide

/-- Claim C9: a POST body with any falsy required field, including a
present field holding 0 or the empty string, is answered 400 with the
body Missing required fields and no gateway call. -/
theorem missing_fields_spec (env : ServeEnv) (b : PayoutBody)
    (h : falsyStr b.email = true ∨ falsyInt b.amount = true ∨
      falsyInt b.coins = true ∨ falsyStr b.userId = true) :
    serveHandler env ⟨"POST", .parsed b⟩ =
      ⟨⟨400, corsJsonHeaders, .err "Missing required fields"⟩, 0, 0⟩ := by
  simp only [serveHandler]
  rw [if_neg (by decide), if_neg (by decide), if_pos]
  rcases h with h | h | h | h <;> simp [h]

/-- Witness for C9: a body whose amount field is present but 0 is
rejected with 400 Missing required fields. -/
theorem missing_fields_spec_witness :
    falsyInt (some 0) = true ∧
    serveHandler sampleEnv
        ⟨"POST", .parsed ⟨some "a@b.com", some 0, some 10000, some "u"⟩⟩ =
      ⟨⟨400, corsJsonHeaders, .err "Missing required fields"⟩, 0, 0⟩ :=
  ⟨by decide, missing_fields_spec sampleEnv
    ⟨some "a@b.com", some 0, some 10000, some "u"⟩
    (Or.inr (Or.inl (by decide)))⟩

/-- Claim C10: the withdrawal history query returns at most 50 records of
the user, sorted by creation time descending; with at least 50 matching
records exactly 50 are shown, and every record left out is no newer than
every record shown. -/
theorem history_limit_spec (records : List Withdrawal) (uid : String) :
    (loadWithdrawals records uid).length ≤ 50 ∧
    List.Sorted createdDesc (loadWithdrawals records uid) ∧
    (50 ≤ (records.filter (fun w => w.userId = uid)).length →
      (loadWithdrawals records uid).length = 50) ∧
    (∀ y ∈ records.filter (fun w => w.userId = uid),
      y ∉ loadWithdrawals records uid →
        ∀ x ∈ loadWithdrawals records uid, createdDesc x y) := by
  have hperm := List.perm_insertionSort createdDesc
    (records.filter (fun w => w.userId = uid))
  have hsort := List.sorted_insertionSort createdDesc
    (records.filter (fun w => w.userId = uid))
  refine ⟨?_, ?_, ?_, ?_⟩
  · simp only [loadWithdrawals, dbListWithdrawals, List.length_take]
    exact Nat.min_le_left _ _
  · exact List.Pairwise.sublist (List.take_sublist _ _) hsort
  · intro hlen
    simp only [loadWithdrawals, dbListWithdrawals, List.length_take]
    rw [hperm.length_eq]
    omega
  · intro y hy hyn x hx
    have hyS : y ∈ List.insertionSort createdDesc
        (records.filter (fun w => w.userId = uid)) := hperm.mem_iff.mpr hy
    rw [← List.take_append_drop 50 (List.insertionSort createdDesc
      (records.filter (fun w => w.userId = uid)))] at hyS
    rcases List.mem_append.mp hyS with h1 | h2
    · exact absurd h1 hyn
    · have hps : List.Pairwise createdDesc
          (List.take 50 (List.insertionSort createdDesc
              (records.filter (fun w => w.userId = uid))) ++
            List.drop 50 (List.insertionSort createdDesc
              (records.filter (fun w => w.userId = uid)))) := by
        rw [List.take_append_drop]
        exact hsort
      exact (List.pairwise_append.mp hps).2.2 x hx y h2

/-- Witness for C10: with 51 records of one user, the view shows exactly
50 of them. -/
theorem history_limit_spec_witness :
    50 ≤ (sampleRecords.filter (fun w => w.userId = "u")).length ∧
    (loadWithdrawals sampleRecords "u").length = 50 :=
  ⟨by decide, (history_limit_spec sampleRecords "u").2.2.1 (by decide)⟩
